import Mathlib

/-!
Verification development for the course-catalog application.

The definitions below are a shallow embedding of the TypeScript source:

* `src/app/api/courses/route.ts` (course list endpoint, `GET`/`POST`),
* the course-detail route (`GET`/`PUT`/`DELETE /api/courses/:id`),
* the seed endpoint (`POST /api/seed-courses`),
* `src/lib/memberstack-client.ts` (`loginMember` token resolution),
* `src/app/courses/page.tsx` (client-side listing filter).

JavaScript field access on possibly-absent fields is modelled with
`Option`; the `||` operator's treatment of the falsy values
`undefined`, `""` and `0` is modelled explicitly by the `jsOr*`
helpers.  External token verification (`verifyToken`, which returns a
member object or `null` and never throws) is an abstract parameter
`verify : String → Option MemberInfo`, and the external data table is
a `List RawCourse`.  All handlers are modelled after their
configuration check (`secretKey`/`appId` present), which none of the
claims concern.
-/

namespace CourseApp

/-- JS truthiness of an optional string: `undefined`/`null` and `""` are falsy. -/
def jsTruthyS : Option String → Bool
  | some s => !(s == "")
  | none => false

/-- JS truthiness of an optional number: absent and `0` are falsy. -/
def jsTruthyQ : Option ℚ → Bool
  | some q => !(q == 0)
  | none => false

/-- JS `a || b` on optional strings (`""` falls through to `b`). -/
def jsOrOpt (a b : Option String) : Option String :=
  match a with
  | some s => if s == "" then b else some s
  | none => b

/-- JS `a || d` on an optional string with a string default. -/
def jsOrStr (a : Option String) (d : String) : String :=
  match a with
  | some s => if s == "" then d else s
  | none => d

/-- JS `a || d` on an optional number with a rational default (`0` is falsy). -/
def jsOrQ (a : Option ℚ) (d : ℚ) : ℚ :=
  match a with
  | some q => if q == 0 then d else q
  | none => d

/-- JS `Math.round` on a rational: round to nearest, halves toward `+∞`
(`Math.round x = ⌊x + 1/2⌋`). -/
def jsRound (q : ℚ) : ℤ := ⌊q + 1/2⌋

/-- A member object as returned by token verification
(`/api/auth/verify-token` returns `{id, memberId, type}`; the routes read
`member.id || member.memberId`, each possibly absent). -/
structure MemberInfo where
  id : Option String
  memberId : Option String
  deriving DecidableEq, Repr

/-- `member.id || member.memberId`, the member identifier used by the routes. -/
def memberIdOf (m : MemberInfo) : Option String :=
  jsOrOpt m.id m.memberId

/-- A course record as stored in the external data table (fields other than
the record id are optional: externally seeded records may lack any of them). -/
structure RawCourse where
  id : String
  title : Option String := none
  description : Option String := none
  owner_id : Option String := none
  price : Option ℚ := none
  priceCents : Option ℤ := none
  status : Option String := none
  category : Option String := none
  tags : List String := []
  created_at : Option String := none
  updated_at : Option String := none
  deriving DecidableEq, Repr

/-- Read-path price normalization
(`course.priceCents ? course.priceCents / 100 : (course.price || 0)`):
a present non-zero `priceCents` wins, else `price || 0`. -/
def readPrice (c : RawCourse) : ℚ :=
  match c.priceCents with
  | some n => if n ≠ 0 then (n : ℚ) / 100 else jsOrQ c.price 0
  | none => jsOrQ c.price 0

/-- Read-path status default on the list endpoint (`course.status || "published"`). -/
def readStatus (c : RawCourse) : String :=
  jsOrStr c.status "published"

/-- The list endpoint's per-course processing
(`{...course, price, status}` with the defaults above). -/
def processCourse (c : RawCourse) : RawCourse :=
  { c with price := some (readPrice c), status := some (readStatus c) }

/-- Result of `GET /api/courses`: 401, or a JSON course list. -/
inductive ListResult where
  | unauthorized
  | ok (courses : List RawCourse)
  deriving DecidableEq, Repr

/-- `getCourse`'s lookup of a record by id in the external table
(`findUnique where id = courseId`). -/
def lookupCourse (store : List RawCourse) (courseId : String) : Option RawCourse :=
  store.find? (fun c => c.id == courseId)

/-- `listCourses(ownerId?)`: all records, or the records whose `owner_id`
equals the filter (the `findMany where owner_id equals` query). -/
def listCoursesTable (store : List RawCourse) (ownerId : Option String) : List RawCourse :=
  match ownerId with
  | some oid => store.filter (fun c => c.owner_id == some oid)
  | none => store

/-- `GET /api/courses` (from `src/app/api/courses/route.ts`): verify the
bearer token when present; 401 when an `owner_id` filter is requested
without a verified member; otherwise list, normalize price/status, and
drop non-published courses only when the caller is anonymous and no
owner filter was given. -/
def coursesGET (verify : String → Option MemberInfo) (store : List RawCourse)
    (token : Option String) (ownerIdParam : Option String) : ListResult :=
  let member : Option MemberInfo :=
    if jsTruthyS token then verify (token.getD "") else none
  if jsTruthyS ownerIdParam && member.isNone then
    .unauthorized
  else
    let fetched := listCoursesTable store
      (if jsTruthyS ownerIdParam then ownerIdParam else none)
    let processed := fetched.map processCourse
    if member.isNone && !(jsTruthyS ownerIdParam) then
      .ok (processed.filter (fun c => c.status == some "published"))
    else
      .ok processed

/-- Result of `GET /api/courses/:id`: 404 or the course (with normalized price). -/
inductive GetOneResult where
  | notFound
  | ok (c : RawCourse)
  deriving DecidableEq, Repr

/-- Response shape of a found course: `{...course, price}` with the
read-path price normalization (status left as stored). -/
def respCourse (c : RawCourse) : RawCourse :=
  { c with price := some (readPrice c) }

/-- `GET /api/courses/:id` (detail route): verify the token when present,
but continue anonymously when verification fails; 404 when the course is
absent; 404 when the course is neither published (status `"published"` or
absent) nor owned by the verified member; otherwise the course. -/
def courseGETOne (verify : String → Option MemberInfo) (store : List RawCourse)
    (courseId : String) (token : Option String) : GetOneResult :=
  let member : Option MemberInfo :=
    if jsTruthyS token then verify (token.getD "") else none
  match lookupCourse store courseId with
  | none => .notFound
  | some course =>
    let isPublished := course.status == some "published" || course.status == none
    let isOwner :=
      match member with
      | some m =>
        jsTruthyS course.owner_id &&
          (m.id == course.owner_id || m.memberId == course.owner_id)
      | none => false
    if !isPublished && !isOwner then .notFound
    else .ok (respCourse course)

/-- The fields a `PUT /api/courses/:id` request body may carry
(each optional; the handler spreads the whole body into the update). -/
structure UpdateBody where
  title : Option String := none
  description : Option String := none
  owner_id : Option String := none
  price : Option ℚ := none
  status : Option String := none
  deriving DecidableEq, Repr

/-- The update payload the PUT handler builds and sends to the store:
the body's fields plus a fresh `updated_at` (the handler deletes `id`
and `created_at`, which are therefore not part of this payload). -/
structure CourseUpdates where
  title : Option String := none
  description : Option String := none
  owner_id : Option String := none
  price : Option ℚ := none
  priceCents : Option ℤ := none
  status : Option String := none
  updated_at : String
  deriving DecidableEq, Repr

/-- Build the update payload from the request body
(`updates = {...body, updated_at: now}; delete updates.id;
delete updates.created_at; if (updates.price) { updates.priceCents =
Math.round(updates.price * 100); delete updates.price }`).
A price of `0` is falsy, so the `priceCents` derivation is skipped. -/
def mkUpdates (body : UpdateBody) (now : String) : CourseUpdates :=
  let u : CourseUpdates :=
    { title := body.title, description := body.description,
      owner_id := body.owner_id, price := body.price, priceCents := none,
      status := body.status, updated_at := now }
  match body.price with
  | some p => if p ≠ 0 then { u with priceCents := some (jsRound (p * 100)), price := none }
              else u
  | none => u

/-- Modelled from the spec: the external data-table `PUT` (out of scope of
this repository) applies a record update by replacing exactly the fields
present in the update payload and keeping the rest — the lifecycle section
describes `PUT` as a partial update that "re-derives price_cents if price
present" and "recomputes updated_at". -/
def applyUpdates (c : RawCourse) (u : CourseUpdates) : RawCourse :=
  { c with
    title := u.title.or c.title,
    description := u.description.or c.description,
    owner_id := u.owner_id.or c.owner_id,
    price := u.price.or c.price,
    priceCents := u.priceCents.or c.priceCents,
    status := u.status.or c.status,
    updated_at := some u.updated_at }

/-- Result of `PUT /api/courses/:id`: 401, 404, 403, or the updated course. -/
inductive PutResult where
  | unauthenticated
  | notFound
  | forbidden
  | ok (updated : RawCourse)
  deriving DecidableEq, Repr

/-- `PUT /api/courses/:id`: 401 without a token or when verification
fails; 404 when the course is absent; 403 when the stored `owner_id`
differs from `member.id || member.memberId`; otherwise the updated
course. -/
def coursePUT (verify : String → Option MemberInfo) (store : List RawCourse)
    (courseId : String) (token : Option String) (body : UpdateBody)
    (now : String) : PutResult :=
  if !jsTruthyS token then .unauthenticated
  else
    match verify (token.getD "") with
    | none => .unauthenticated
    | some member =>
      match lookupCourse store courseId with
      | none => .notFound
      | some existing =>
        if existing.owner_id ≠ memberIdOf member then .forbidden
        else .ok (applyUpdates existing (mkUpdates body now))

/-- Result of `DELETE /api/courses/:id`: 401, 404, 403, or success. -/
inductive DeleteResult where
  | unauthenticated
  | notFound
  | forbidden
  | deleted
  deriving DecidableEq, Repr

/-- `DELETE /api/courses/:id`: the same auth/ownership chain as PUT,
then the deletion. -/
def courseDELETE (verify : String → Option MemberInfo) (store : List RawCourse)
    (courseId : String) (token : Option String) : DeleteResult :=
  if !jsTruthyS token then .unauthenticated
  else
    match verify (token.getD "") with
    | none => .unauthenticated
    | some member =>
      match lookupCourse store courseId with
      | none => .notFound
      | some existing =>
        if existing.owner_id ≠ memberIdOf member then .forbidden
        else .deleted

/-- Value of a decimal digit string (the digit-accumulation part of
ECMAScript `parseInt`). -/
def parseIntDigits (ds : List Char) : ℤ :=
  ds.foldl (fun acc c => acc * 10 + ((c.toNat - 48 : Nat) : ℤ)) 0

/-- ECMAScript `parseInt(s, 10)` on a string: skip leading whitespace,
optional sign, then the maximal leading run of decimal digits; `none`
models `NaN` (no digits). -/
def parseIntJS (s : String) : Option ℤ :=
  let cs := s.toList.dropWhile fun c => c.isWhitespace
  let signNeg : Bool := cs.head? == some '-'
  let rest := if cs.head? == some '-' || cs.head? == some '+' then cs.tail else cs
  let ds := rest.takeWhile Char.isDigit
  if ds.isEmpty then none
  else some ((if signNeg then -1 else 1) * parseIntDigits ds)

/-- JS `a || d` on an optional integer (`NaN` and `0` are falsy). -/
def jsOrZ (a : Option ℤ) (d : ℤ) : ℤ :=
  match a with
  | some n => if n == 0 then d else n
  | none => d

/-- The seed endpoint's `count` parameter resolution
(`searchParams.get("count") || body.count || "50"`). -/
def seedCountParam (queryCount bodyCount : Option String) : String :=
  jsOrStr queryCount (jsOrStr bodyCount "50")

/-- The number of course records `POST /api/seed-courses` builds and
attempts to create:
`Math.min(Math.max(parseInt(countParam, 10) || 50, 1), 200)`. -/
def seedCount (countParam : String) : ℤ :=
  min (max (jsOrZ (parseIntJS countParam) 50) 1) 200

/-- Seed count as a function of the raw query/body parameters. -/
def seedCountOf (queryCount bodyCount : Option String) : ℤ :=
  seedCount (seedCountParam queryCount bodyCount)

/-- The nested token bundle of a login/signup response (`data.tokens`). -/
structure TokenBundle where
  accessToken : Option String := none
  deriving DecidableEq, Repr

/-- A member object embedded in a login/signup response, probed for
`member.token` / `member.accessToken`. -/
structure MemberBlob where
  token : Option String := none
  accessToken : Option String := none
  deriving DecidableEq, Repr

/-- The `data` field of a login/signup response. -/
structure LoginDataBlob where
  tokens : Option TokenBundle := none
  token : Option String := none
  accessToken : Option String := none
  member : Option MemberBlob := none
  deriving DecidableEq, Repr

/-- A login/signup response of unknown shape (every probed path optional). -/
structure LoginResult where
  data : Option LoginDataBlob := none
  token : Option String := none
  accessToken : Option String := none
  member : Option MemberBlob := none
  deriving DecidableEq, Repr

/-- The SDK instance as probed by `loginMember`: the three token-returning
methods (`some r` = the method exists and returns `r`) and the three
direct token properties. -/
structure SDKInstance where
  getTokenFn : Option (Option String) := none
  getAccessTokenFn : Option (Option String) := none
  getSessionTokenFn : Option (Option String) := none
  tokenProp : Option String := none
  accessTokenProp : Option String := none
  sessionTokenProp : Option String := none
  deriving DecidableEq, Repr

/-- The SDK fallback probe of `loginMember`: an `else if` chain that calls
the first method that exists (stopping there even when it returns nothing),
else falls through the direct properties. -/
def sdkTokenProbe (ms : SDKInstance) : Option String :=
  match ms.getTokenFn with
  | some r => r
  | none =>
    match ms.getAccessTokenFn with
    | some r => r
    | none =>
      match ms.getSessionTokenFn with
      | some r => r
      | none => jsOrOpt ms.tokenProp (jsOrOpt ms.accessTokenProp ms.sessionTokenProp)

/-- `member.token || member.accessToken` on an embedded member object. -/
def memberBlobToken (mb : MemberBlob) : Option String :=
  jsOrOpt mb.token mb.accessToken

/-- Token resolution of `loginMember` (from `src/lib/memberstack-client.ts`):
probe `result?.data?.tokens?.accessToken || result?.data?.token ||
result?.token || result?.data?.accessToken || result?.accessToken`; when
that misses, probe the SDK instance, then `result.data.member`, then
`result.member`.  Total (never throws); `none` models the resolver's
`null`. -/
def resolveLoginToken (ms : SDKInstance) (result : LoginResult) : Option String :=
  let fromResult :=
    jsOrOpt (result.data.bind fun d => d.tokens.bind fun tb => tb.accessToken)
      (jsOrOpt (result.data.bind fun d => d.token)
        (jsOrOpt result.token
          (jsOrOpt (result.data.bind fun d => d.accessToken) result.accessToken)))
  if jsTruthyS fromResult then fromResult
  else
    let t1 := sdkTokenProbe ms
    let t2 :=
      if !jsTruthyS t1 then
        match result.data.bind fun d => d.member with
        | some mb => memberBlobToken mb
        | none => t1
      else t1
    if !jsTruthyS t2 then
      match result.member with
      | some mb => memberBlobToken mb
      | none => t2
    else t2

/-- An optional embedded member object carries no token field. -/
def mbNoToken : Option MemberBlob → Bool
  | none => true
  | some mb => mb.token.isNone && mb.accessToken.isNone

/-- The login response contains no token at any probed location. -/
def resultNoToken (r : LoginResult) : Bool :=
  (match r.data with
   | none => true
   | some d =>
     (match d.tokens with
      | none => true
      | some tb => tb.accessToken.isNone) &&
     d.token.isNone && d.accessToken.isNone && mbNoToken d.member) &&
  r.token.isNone && r.accessToken.isNone && mbNoToken r.member

/-- The SDK instance offers no token method and no token property. -/
def sdkNoToken (ms : SDKInstance) : Bool :=
  ms.getTokenFn.isNone && ms.getAccessTokenFn.isNone &&
  ms.getSessionTokenFn.isNone && ms.tokenProp.isNone &&
  ms.accessTokenProp.isNone && ms.sessionTokenProp.isNone

/-- A course as held by the listing page state (fields it filters on). -/
structure UICourse where
  title : Option String := none
  description : Option String := none
  category : Option String := none
  tags : Option (List String) := none
  price : Option ℚ := none
  created_at : Option String := none
  deriving DecidableEq, Repr

/-- `q` is a leading segment of `s` (character lists). -/
def startsWithL : List Char → List Char → Bool
  | [], _ => true
  | _ :: _, [] => false
  | a :: as, b :: bs => a == b && startsWithL as bs

/-- JS `s.includes(q)` on character lists: `q` occurs inside `s`. -/
def hasSubL (q : List Char) : List Char → Bool
  | [] => q.isEmpty
  | c :: rest => startsWithL q (c :: rest) || hasSubL q rest

/-- JS `s.includes(q)` on strings. -/
def strIncludes (s q : String) : Bool :=
  hasSubL q.toList s.toList

/-- JS `s.toLowerCase()` (character-wise lowering, which is all the
source's ASCII data needs). -/
def jsToLower (s : String) : String :=
  String.mk (s.toList.map Char.toLower)

/-- The listing page's search predicate: the lowercased query occurs in the
lowercased title, description or category, or in some lowercased tag
(absent fields contribute `false`, as JS optional chaining does). -/
def matchesSearch (c : UICourse) (query : String) : Bool :=
  ((c.title.map fun t => strIncludes (jsToLower t) query).getD false) ||
  ((c.description.map fun d => strIncludes (jsToLower d) query).getD false) ||
  ((c.category.map fun d => strIncludes (jsToLower d) query).getD false) ||
  ((c.tags.map fun ts => ts.any fun tag => strIncludes (jsToLower tag) query).getD false)

/-- The listing page's filter pipeline (from `src/app/courses/page.tsx`,
in source order: category, then search, then price; sorting afterwards
only reorders).  `"all"` disables the category filter, an empty query
disables search, `"free"` keeps falsy prices, `"paid"` keeps truthy
positive prices. -/
def filterCourses (courses : List UICourse)
    (selectedCategory searchQuery priceFilter : String) : List UICourse :=
  let f1 :=
    if selectedCategory ≠ "all" then
      courses.filter (fun c => c.category == some selectedCategory)
    else courses
  let f2 :=
    if searchQuery ≠ "" then
      let query := jsToLower searchQuery
      f1.filter (fun c => matchesSearch c query)
    else f1
  if priceFilter == "free" then
    f2.filter (fun c => !(jsTruthyQ c.price))
  else if priceFilter == "paid" then
    f2.filter (fun c =>
      match c.price with
      | some p => !(p == 0) && decide (0 < p)
      | none => false)
  else f2

/-- Write-path price conversion (`Math.round(price * 100)`, used by POST
for truthy prices and by PUT's re-derivation; POST's falsy branch stores
`0`, which coincides with this at `price = 0`). -/
def centsOfPrice (p : ℚ) : ℤ :=
  jsRound (p * 100)

/-- Read-path conversion of stored cents back to a decimal price
(`priceCents / 100`). -/
def priceOfCents (n : ℤ) : ℚ :=
  (n : ℚ) / 100

/-- One write/read round trip of a price value. -/
def priceRoundTrip (p : ℚ) : ℚ :=
  priceOfCents (centsOfPrice p)

/-! Concrete fixtures used by counterexamples and witnesses. -/

/-- A verifier with two members: token `"tokA"` belongs to member `A`,
token `"tokB"` to member `B`. -/
def verifyAB : String → Option MemberInfo := fun t =>
  if t == "tokA" then some { id := some "A", memberId := none }
  else if t == "tokB" then some { id := some "B", memberId := none }
  else none

/-- A draft course owned by member `A`. -/
def draftA : RawCourse :=
  { id := "c1", owner_id := some "A", status := some "draft" }

/-- A published course owned by member `A`. -/
def pubA : RawCourse :=
  { id := "c2", owner_id := some "A", status := some "published" }

/-- A course owned by `A` with stored `priceCents = 999`. -/
def pricedA : RawCourse :=
  { id := "c3", owner_id := some "A", priceCents := some 999 }

/-- A course as displayed on the listing page: free Web Development course. -/
def webCourse : UICourse :=
  { title := some "Intro to JS", category := some "Web Development", price := some 0 }

/-- A course as displayed on the listing page: paid Data Science course. -/
def mlCourse : UICourse :=
  { title := some "ML", category := some "Data Science", price := some 50 }

/-- Rounding adds less than one: the floor of one half is zero. -/
theorem floor_half_eq_zero : ⌊(1 / 2 : ℚ)⌋ = 0 := by
  rw [Int.floor_eq_zero_iff]
  constructor <;> norm_num

/-- `Math.round` is the identity on integral values. -/
theorem jsRound_intCast (z : ℤ) : jsRound ((z : ℚ)) = z := by
  unfold jsRound
  rw [Int.floor_int_add, floor_half_eq_zero, add_zero]

/-- The write-path conversion sends price `0` to `0` cents. -/
theorem centsOfPrice_zero : centsOfPrice 0 = 0 := by
  unfold centsOfPrice
  have h : ((0 : ℚ) * 100) = ((0 : ℤ) : ℚ) := by norm_num
  rw [h, jsRound_intCast]

/-- The update payload's `owner_id` is exactly the body's `owner_id`
(the price branch does not touch it). -/
theorem mkUpdates_owner_id (body : UpdateBody) (now : String) :
    (mkUpdates body now).owner_id = body.owner_id := by
  unfold mkUpdates
  cases body.price with
  | none => rfl
  | some p => by_cases hp : p = 0 <;> simp [hp]

/-- The update payload's `updated_at` is the request time in both price
branches. -/
theorem mkUpdates_updated_at (body : UpdateBody) (now : String) :
    (mkUpdates body now).updated_at = now := by
  unfold mkUpdates
  cases body.price with
  | none => rfl
  | some p => by_cases hp : p = 0 <;> simp [hp]

/-- For a truthy (non-zero) body price the update payload carries the
re-derived `priceCents`. -/
theorem mkUpdates_priceCents (body : UpdateBody) (now : String) (p : ℚ)
    (hp : body.price = some p) (hp0 : p ≠ 0) :
    (mkUpdates body now).priceCents = some (jsRound (p * 100)) := by
  unfold mkUpdates
  rw [hp]
  simp [hp0]

/-- C1, counterexample: on `GET /api/courses` with no `owner_id` filter,
a caller authenticated as member `B` receives member `A`'s draft course —
the endpoint only filters to published courses for anonymous callers, so
an authenticated caller does receive other members' unpublished courses,
contrary to the claim. -/
theorem coursesGET_foreign_draft_counterexample :
    coursesGET verifyAB [draftA, pubA] (some "tokB") none =
      .ok [processCourse draftA, processCourse pubA] ∧
    (processCourse draftA).status = some "draft" ∧
    (processCourse draftA).owner_id = some "A" ∧
    verifyAB "tokB" = some { id := some "B", memberId := none } :=
  ⟨rfl, rfl, rfl, rfl⟩

/-- C1, amended: without an `owner_id` filter, an unauthenticated caller
receives exactly the courses whose defaulted status is `"published"`,
while a caller whose token verifies to any member receives the whole
processed course list — including every other member's drafts and
archived courses. -/
theorem coursesGET_visibility_amended (verify : String → Option MemberInfo)
    (store : List RawCourse) (t : String) (m : MemberInfo)
    (ht : t ≠ "") (hv : verify t = some m) :
    coursesGET verify store (some t) none = .ok (store.map processCourse) ∧
    coursesGET verify store none none =
      .ok ((store.map processCourse).filter
        (fun c => c.status == some "published")) := by
  constructor
  · simp [coursesGET, listCoursesTable, jsTruthyS, ht, hv]
  · simp [coursesGET, listCoursesTable, jsTruthyS]

/-- C1, witness for the amended theorem at a concrete verifier and store. -/
theorem coursesGET_visibility_amended_witness :
    coursesGET verifyAB [draftA, pubA] (some "tokB") none =
      .ok ([draftA, pubA].map processCourse) ∧
    coursesGET verifyAB [draftA, pubA] none none =
      .ok (([draftA, pubA].map processCourse).filter
        (fun c => c.status == some "published")) :=
  coursesGET_visibility_amended verifyAB [draftA, pubA] "tokB"
    { id := some "B", memberId := none } (by decide) rfl

/-- C2, counterexample: an authenticated `PUT /api/courses/:id` by the
owner whose body contains an `owner_id` field changes the stored owner
identifier — the handler deletes only `id` and `created_at` from the
body, so `owner_id` passes through into the update. -/
theorem coursePUT_owner_overwrite_counterexample :
    coursePUT verifyAB [draftA] "c1" (some "tokA") { owner_id := some "X" } "now" =
      .ok { draftA with owner_id := some "X", updated_at := some "now" } ∧
    draftA.owner_id = some "A" :=
  ⟨rfl, rfl⟩

/-- C2, amended: an authenticated `PUT /api/courses/:id` preserves the
course's owner identifier whenever the request body does not itself
contain an `owner_id` field. -/
theorem coursePUT_preserves_owner_amended (verify : String → Option MemberInfo)
    (store : List RawCourse) (courseId : String) (token : Option String)
    (body : UpdateBody) (now : String) (c u : RawCourse)
    (hb : body.owner_id = none)
    (hc : lookupCourse store courseId = some c)
    (h : coursePUT verify store courseId token body now = .ok u) :
    u.owner_id = c.owner_id := by
  by_cases htk : jsTruthyS token
  · cases hv : verify (token.getD "") with
    | none => simp [coursePUT, htk, hv] at h
    | some member =>
      by_cases ho : c.owner_id = memberIdOf member
      · simp [coursePUT, htk, hv, hc, ho] at h
        subst h
        simp [applyUpdates, mkUpdates_owner_id, hb]
      · simp [coursePUT, htk, hv, hc, ho] at h
  · simp [coursePUT, htk] at h

/-- C2, witness for the amended theorem: an owner update without an
`owner_id` field keeps `owner_id = some "A"`. -/
theorem coursePUT_preserves_owner_amended_witness :
    ({ draftA with title := some "T", updated_at := some "now" } : RawCourse).owner_id =
      draftA.owner_id :=
  coursePUT_preserves_owner_amended verifyAB [draftA] "c1" (some "tokA")
    { title := some "T" } "now" draftA
    { draftA with title := some "T", updated_at := some "now" }
    rfl rfl rfl

/-- C3: for an existing course, `PUT` and `DELETE` succeed only when the
verified member's identifier equals the stored owner identifier; a valid
token of a member whose identifier differs yields 403 (and hence no
update or deletion is issued). -/
theorem mutation_owner_only (verify : String → Option MemberInfo)
    (store : List RawCourse) (courseId t now : String) (body : UpdateBody)
    (c : RawCourse) (m : MemberInfo)
    (ht : t ≠ "") (hc : lookupCourse store courseId = some c)
    (hm : verify t = some m) :
    (memberIdOf m ≠ c.owner_id →
      coursePUT verify store courseId (some t) body now = .forbidden ∧
      courseDELETE verify store courseId (some t) = .forbidden) ∧
    (∀ u, coursePUT verify store courseId (some t) body now = .ok u →
      memberIdOf m = c.owner_id) ∧
    (courseDELETE verify store courseId (some t) = .deleted →
      memberIdOf m = c.owner_id) := by
  have htk : jsTruthyS (some t) = true := by simp [jsTruthyS, ht]
  refine ⟨fun hne => ?_, fun u h => ?_, fun h => ?_⟩
  · have ho : c.owner_id ≠ memberIdOf m := fun hx => hne hx.symm
    constructor
    · simp [coursePUT, htk, hm, hc, ho]
    · simp [courseDELETE, htk, hm, hc, ho]
  · by_cases ho : c.owner_id = memberIdOf m
    · exact ho.symm
    · simp [coursePUT, htk, hm, hc, ho] at h
  · by_cases ho : c.owner_id = memberIdOf m
    · exact ho.symm
    · simp [courseDELETE, htk, hm, hc, ho] at h

/-- C3, witness: member `B`'s valid token on member `A`'s course is
rejected with 403 on both `PUT` and `DELETE`. -/
theorem mutation_owner_only_witness :
    coursePUT verifyAB [draftA] "c1" (some "tokB") {} "now" = .forbidden ∧
    courseDELETE verifyAB [draftA] "c1" (some "tokB") = .forbidden :=
  (mutation_owner_only verifyAB [draftA] "c1" "tokB" "now" {} draftA
    { id := some "B", memberId := none } (by decide) rfl rfl).1 (by decide)

/-- C4: an unauthenticated `GET /api/courses/:id` of an existing course
whose stored status is present and not `"published"` responds 404 — the
same result as for a course that does not exist. -/
theorem unpublished_hidden_from_anonymous (verify : String → Option MemberInfo)
    (store : List RawCourse) (courseId : String) (c : RawCourse) (s : String)
    (hc : lookupCourse store courseId = some c) (hs : c.status = some s)
    (hns : s ≠ "published") :
    courseGETOne verify store courseId none = .notFound ∧
    ∀ courseId2, lookupCourse store courseId2 = none →
      courseGETOne verify store courseId2 none = .notFound := by
  constructor
  · simp [courseGETOne, hc, hs, hns, jsTruthyS]
  · intro courseId2 h2
    simp [courseGETOne, h2, jsTruthyS]

/-- C4, witness: member `A`'s draft course is 404 to an anonymous caller,
as is a missing course id. -/
theorem unpublished_hidden_from_anonymous_witness :
    courseGETOne verifyAB [draftA] "c1" none = .notFound ∧
    courseGETOne verifyAB [draftA] "missing" none = .notFound := by
  have h := unpublished_hidden_from_anonymous verifyAB [draftA] "c1" draftA
    "draft" rfl rfl (by decide)
  exact ⟨h.1, h.2 "missing" rfl⟩

/-- C5, counterexample: a requested seed count of `0` is not clamped to 1 —
`parseInt("0", 10)` is `0`, which is falsy, so `|| 50` replaces it with the
default and the endpoint attempts 50 records. -/
theorem seedCount_zero_counterexample :
    seedCountOf (some "0") none = 50 ∧ (50 : ℤ) ≠ 1 := by
  constructor
  · have hp : parseIntJS "0" = some 0 := by decide
    show seedCount "0" = 50
    unfold seedCount
    rw [hp]
    have hz : jsOrZ (some 0) 50 = 50 := rfl
    rw [hz]
    omega
  · decide

/-- C5, amended: the seed count is `parseInt(count) || 50` clamped to
`[1, 200]`: negative values clamp to 1, values above 200 clamp to 200,
values in range pass through, an unspecified count defaults to 50 — but a
requested count of `0` (or a non-numeric one) falls back to the default 50
rather than clamping to 1. -/
theorem seedCount_clamped_amended (q : String) (n : ℤ)
    (hp : parseIntJS q = some n) :
    (n < 0 → seedCount q = 1) ∧
    (n = 0 → seedCount q = 50) ∧
    (1 ≤ n → n ≤ 200 → seedCount q = n) ∧
    (200 < n → seedCount q = 200) ∧
    seedCountOf none none = 50 ∧
    1 ≤ seedCount q ∧ seedCount q ≤ 200 := by
  have hval : seedCount q = min (max (if n = 0 then 50 else n) 1) 200 := by
    simp [seedCount, hp, jsOrZ]
  have h50 : seedCountOf none none = 50 := by
    have hp50 : parseIntJS "50" = some 50 := by decide
    show seedCount "50" = 50
    unfold seedCount
    rw [hp50]
    have hz : jsOrZ (some 50) 50 = 50 := rfl
    rw [hz]
    omega
  refine ⟨fun h => ?_, fun h => ?_, fun h1 h2 => ?_, fun h => ?_, h50, ?_, ?_⟩
  · rw [hval, if_neg (by omega)]; omega
  · rw [hval, if_pos h]; omega
  · rw [hval, if_neg (by omega)]; omega
  · rw [hval, if_neg (by omega)]; omega
  · rw [hval]; by_cases h0 : n = 0
    · rw [if_pos h0]; omega
    · rw [if_neg h0]; omega
  · rw [hval]; by_cases h0 : n = 0
    · rw [if_pos h0]; omega
    · rw [if_neg h0]; omega

/-- C5, witness: `count=200` attempts exactly 200, `count=-5` clamps to 1,
`count=7` passes through. -/
theorem seedCount_clamped_amended_witness :
    seedCount "200" = 200 ∧ seedCount "-5" = 1 ∧ seedCount "7" = 7 := by
  refine ⟨?_, ?_, ?_⟩
  · exact (seedCount_clamped_amended "200" 200 (by decide)).2.2.1
      (by decide) (by decide)
  · exact (seedCount_clamped_amended "-5" (-5) (by decide)).1 (by decide)
  · exact (seedCount_clamped_amended "7" 7 (by decide)).2.2.1
      (by decide) (by decide)

/-- C6: the login token resolver returns `data.tokens.accessToken` when it
is present and non-empty (it is the first probe, so any other fields are
irrelevant); and when neither the response nor the SDK instance carries a
token at any probed location it returns `none` — the resolver is a total
function, so it never throws. -/
theorem resolveLoginToken_spec :
    (∀ (ms : SDKInstance) (r : LoginResult) (d : LoginDataBlob)
        (tb : TokenBundle) (tok : String),
      r.data = some d → d.tokens = some tb → tb.accessToken = some tok →
      tok ≠ "" → resolveLoginToken ms r = some tok) ∧
    (∀ (ms : SDKInstance) (r : LoginResult),
      sdkNoToken ms = true → resultNoToken r = true →
      resolveLoginToken ms r = none) := by
  constructor
  · intro ms r d tb tok h1 h2 h3 h4
    simp [resolveLoginToken, h1, h2, h3, jsOrOpt, jsTruthyS, h4]
  · intro ms r hs hr
    obtain ⟨g1, g2, g3, p1, p2, p3⟩ := ms
    obtain ⟨rd, rt, ra, rm⟩ := r
    simp only [sdkNoToken, Bool.and_eq_true, Option.isNone_iff_eq_none] at hs
    obtain ⟨⟨⟨⟨⟨hg1, hg2⟩, hg3⟩, hp1⟩, hp2⟩, hp3⟩ := hs
    subst hg1; subst hg2; subst hg3; subst hp1; subst hp2; subst hp3
    rcases rd with _ | ⟨_ | ⟨ta⟩, dtok, da, _ | ⟨dmt, dma⟩⟩ <;>
      rcases rm with _ | ⟨mt, ma⟩ <;>
      simp_all [resultNoToken, mbNoToken, resolveLoginToken, sdkTokenProbe,
        jsOrOpt, jsTruthyS, memberBlobToken]

/-- C6, witness: a response carrying only `data.tokens.accessToken = "T"`
resolves to `"T"`, and the all-empty response with a token-less SDK
resolves to `none`. -/
theorem resolveLoginToken_spec_witness :
    resolveLoginToken {} { data := some { tokens := some { accessToken := some "T" } } } =
      some "T" ∧
    resolveLoginToken {} {} = none :=
  ⟨resolveLoginToken_spec.1 {} _ _ _ "T" rfl rfl rfl (by decide),
   resolveLoginToken_spec.2 {} {} (by decide) (by decide)⟩

/-- C7, counterexample: an owner `PUT` whose body is `{price: 0}` does not
re-derive `price_cents` — `if (updates.price)` is false for `0`, so the
stored `priceCents` stays `999` instead of becoming `round(0 * 100) = 0`
(the `price: 0` field itself is passed through). -/
theorem coursePUT_zero_price_counterexample :
    coursePUT verifyAB [pricedA] "c3" (some "tokA") { price := some 0 } "now" =
      .ok { pricedA with price := some 0, updated_at := some "now" } ∧
    ({ pricedA with price := some 0, updated_at := some "now" } : RawCourse).priceCents =
      some 999 ∧
    centsOfPrice 0 = 0 ∧
    some (999 : ℤ) ≠ some (centsOfPrice 0) := by
  refine ⟨rfl, rfl, centsOfPrice_zero, ?_⟩
  rw [centsOfPrice_zero]
  decide

/-- C7, amended: every successful owner `PUT` recomputes `updated_at` to
the time of the update, and re-derives `price_cents = round(price * 100)`
whenever the body's price is present and non-zero (a zero price skips the
derivation). -/
theorem coursePUT_price_update_amended (verify : String → Option MemberInfo)
    (store : List RawCourse) (courseId : String) (token : Option String)
    (body : UpdateBody) (now : String) (c u : RawCourse)
    (hc : lookupCourse store courseId = some c)
    (h : coursePUT verify store courseId token body now = .ok u) :
    u.updated_at = some now ∧
    (∀ p : ℚ, body.price = some p → p ≠ 0 →
      u.priceCents = some (centsOfPrice p)) := by
  by_cases htk : jsTruthyS token
  · cases hv : verify (token.getD "") with
    | none => simp [coursePUT, htk, hv] at h
    | some member =>
      by_cases ho : c.owner_id = memberIdOf member
      · simp [coursePUT, htk, hv, hc, ho] at h
        subst h
        constructor
        · simp [applyUpdates, mkUpdates_updated_at]
        · intro p hp hp0
          simp [applyUpdates, mkUpdates_priceCents body now p hp hp0,
            centsOfPrice]
      · simp [coursePUT, htk, hv, hc, ho] at h
  · simp [coursePUT, htk] at h

/-- C7, witness: an owner update with `price = 25` stores
`priceCents = 2500` and the fresh `updated_at`. -/
theorem coursePUT_price_update_amended_witness :
    ({ pricedA with priceCents := some 2500, updated_at := some "now" } : RawCourse).updated_at =
      some "now" ∧
    (∀ p : ℚ, ({ price := some 25 } : UpdateBody).price = some p → p ≠ 0 →
      ({ pricedA with priceCents := some 2500, updated_at := some "now" } : RawCourse).priceCents =
        some (centsOfPrice p)) := by
  have hr : jsRound ((25 : ℚ) * 100) = 2500 := by
    have h1 : ((25 : ℚ) * 100) = ((2500 : ℤ) : ℚ) := by norm_num
    rw [h1, jsRound_intCast]
  have hu : mkUpdates { price := some 25 } "now" =
      { priceCents := some 2500, updated_at := "now" } := by
    simp [mkUpdates, hr, show ¬((25 : ℚ) = 0) by norm_num]
  have h0 : coursePUT verifyAB [pricedA] "c3" (some "tokA") { price := some 25 } "now" =
      .ok (applyUpdates pricedA (mkUpdates { price := some 25 } "now")) := rfl
  rw [hu] at h0
  exact coursePUT_price_update_amended verifyAB [pricedA] "c3" (some "tokA")
    { price := some 25 } "now" pricedA
    { pricedA with priceCents := some 2500, updated_at := some "now" } rfl h0

/-- C8: on the two-course base list, selecting category
`"Web Development"` yields exactly the first course, price filter
`"paid"` yields exactly the second, and search text `"intro"` (matched
case-insensitively against title, description, category and tags) yields
exactly the first. -/
theorem listing_filter_examples :
    filterCourses [webCourse, mlCourse] "Web Development" "" "all" = [webCourse] ∧
    filterCourses [webCourse, mlCourse] "all" "" "paid" = [mlCourse] ∧
    filterCourses [webCourse, mlCourse] "all" "intro" "all" = [webCourse] :=
  ⟨rfl, rfl, rfl⟩

/-- C9: the write/read price conversion (`round(p * 100)` to integer
cents, then divide by 100) is idempotent for every price `p ≥ 0`: a second
round trip returns the first round trip's value exactly. -/
theorem priceRoundTrip_idempotent (p : ℚ) (_hp : 0 ≤ p) :
    priceRoundTrip (priceRoundTrip p) = priceRoundTrip p := by
  unfold priceRoundTrip priceOfCents centsOfPrice jsRound
  rw [div_mul_cancel₀ _ (by norm_num : (100 : ℚ) ≠ 0)]
  have h12 : ⌊(1 / 2 : ℚ)⌋ = 0 := by
    rw [Int.floor_eq_zero_iff]
    constructor <;> norm_num
  rw [Int.floor_int_add, h12, add_zero]

/-- C9, witness at the concrete price `49.995`. -/
theorem priceRoundTrip_idempotent_witness :
    (0 : ℚ) ≤ 49995 / 1000 ∧
    priceRoundTrip (priceRoundTrip (49995 / 1000)) = priceRoundTrip (49995 / 1000) :=
  ⟨by norm_num, priceRoundTrip_idempotent (49995 / 1000) (by norm_num)⟩

/-- C10: on `GET /api/courses/:id`, a bearer token that fails verification
is not rejected with 401 — the handler proceeds exactly as if no token had
been sent: the response equals the anonymous response, so a published
course is returned and a hidden (present, non-published status) course
yields 404. -/
theorem invalid_token_get_is_anonymous (verify : String → Option MemberInfo)
    (store : List RawCourse) (courseId t : String) (hv : verify t = none) :
    courseGETOne verify store courseId (some t) =
      courseGETOne verify store courseId none ∧
    (∀ c, lookupCourse store courseId = some c →
      (c.status = some "published" ∨ c.status = none) →
      courseGETOne verify store courseId (some t) = .ok (respCourse c)) ∧
    (∀ c s, lookupCourse store courseId = some c → c.status = some s →
      s ≠ "published" →
      courseGETOne verify store courseId (some t) = .notFound) := by
  have hmem : (if jsTruthyS (some t) then verify ((some t : Option String).getD "") else none) =
      (none : Option MemberInfo) := by
    by_cases ht : t = "" <;> simp [jsTruthyS, ht, hv]
  refine ⟨?_, ?_, ?_⟩
  · unfold courseGETOne
    rw [hmem]
    simp [jsTruthyS]
  · intro c hcc hpub
    unfold courseGETOne
    rw [hmem, hcc]
    rcases hpub with h | h <;> simp [h]
  · intro c s hcc hs hns
    unfold courseGETOne
    rw [hmem, hcc]
    simp [hs, hns]

/-- C10, witness: with an unverifiable token, member `A`'s published
course is returned and the draft course is 404, matching the anonymous
responses. -/
theorem invalid_token_get_is_anonymous_witness :
    courseGETOne verifyAB [draftA, pubA] "c2" (some "bad") =
      courseGETOne verifyAB [draftA, pubA] "c2" none ∧
    courseGETOne verifyAB [draftA, pubA] "c2" (some "bad") = .ok (respCourse pubA) ∧
    courseGETOne verifyAB [draftA, pubA] "c1" (some "bad") = .notFound := by
  have h2 := invalid_token_get_is_anonymous verifyAB [draftA, pubA] "c2" "bad" rfl
  have h1 := invalid_token_get_is_anonymous verifyAB [draftA, pubA] "c1" "bad" rfl
  exact ⟨h2.1, h2.2.1 pubA rfl (Or.inl rfl), h1.2.2 draftA "draft" rfl rfl (by decide)⟩

end CourseApp
